import Mathlib

/-!
Verification of the option-contracts serverless handler (src/main.rs).

The source is a single Rust request handler built from four parts: a
parameter extractor over a generic JSON event, a contract-listing HTTP
call, a concurrent fan-out of per-contract detail fetches, and a result
shaper that turns detail values into flat summary records.

Shallow-embedding conventions used throughout this file:
  * `serde_json::Value` is embedded as the inductive `Oca.Value`; JSON
    numbers are carried exactly, either as integers (serde stores small
    integer literals as i64/u64) or as rationals standing for the float
    payload (every JSON numeric literal is a finite decimal, hence an
    exact rational; the float rounding of the Rust runtime is immaterial
    to the properties checked here, which use decimally-exact inputs).
  * HTTP traffic is embedded by outcome: a send either fails at the
    transport layer or yields a response with a success flag and the
    outcome of reading/deserializing its body.
  * The concurrent `join_all` fan-out preserves the order of the futures
    it is given (one per contract ticker, in ticker-list order); it is
    embedded as mapping a per-ticker outcome function over the ticker
    list.
  * Calendar dates are embedded as integer day numbers, so `chrono`'s
    `today + Duration::days n` is plain integer addition.
-/

namespace Oca

/-- An exact decimal number: the value `m / 10 ^ e`. Every JSON numeric
literal is a finite decimal, so this carries float payloads exactly;
two representations denote the same number exactly when their `toRat`
interpretations agree. -/
structure Dec10 where
  m : Int
  e : Nat
deriving DecidableEq

/-- The rational value of a decimal. -/
def Dec10.toRat (d : Dec10) : ℚ :=
  (d.m : ℚ) / (10 : ℚ) ^ d.e

/-- Multiplication by 100 (the `v * 100.0` at line 223), exact on
decimals. -/
def Dec10.mul100 (d : Dec10) : Dec10 :=
  ⟨d.m * 100, d.e⟩

/-- A serde_json number: serde stores JSON integer literals as i64/u64
(constructor `int`) and fractional literals as f64 (constructor `float`,
carried as an exact decimal). -/
inductive JNum where
  | int (n : Int)
  | float (d : Dec10)
deriving DecidableEq

/-- Embedding of `serde_json::Value`. Objects are association lists of
fields; serde's map keeps keys unique, and every lookup below takes the
first occurrence. -/
inductive Value where
  | null
  | bool (b : Bool)
  | num (n : JNum)
  | str (s : String)
  | arr (elems : List Value)
  | obj (fields : List (String × Value))

/-- First-match lookup in an object's field list. -/
def lookupField : List (String × Value) → String → Option Value
  | [], _ => none
  | (k, v) :: rest, key => if k = key then some v else lookupField rest key

/-- `Value::get(key)`: `some` exactly when the value is an object with the
key present (the stored value may itself be `null`). -/
def Value.get : Value → String → Option Value
  | .obj fields, key => lookupField fields key
  | _, _ => none

/-- The `value[key]` index operator on a borrowed `serde_json::Value`:
missing keys and non-objects read as `Null`. -/
def Value.idx (v : Value) (key : String) : Value :=
  (v.get key).getD .null

/-- `Value::as_str`. -/
def Value.asStr : Value → Option String
  | .str s => some s
  | _ => none

/-- `Value::as_array`. -/
def Value.asArr : Value → Option (List Value)
  | .arr elems => some elems
  | _ => none

/-- `Value::as_f64`: any number converts to a float, embedded as an
exact decimal. -/
def Value.asF64 : Value → Option Dec10
  | .num (.int n) => some ⟨n, 0⟩
  | .num (.float d) => some d
  | _ => none

/-- The rational value behind `as_f64`, for value-level statements. -/
def Value.asF64Val (v : Value) : Option ℚ :=
  v.asF64.map Dec10.toRat

/-- `Value::as_u64`: succeeds exactly on numbers stored as non-negative
integers; numbers stored as floats give `None`. -/
def Value.asU64 : Value → Option Nat
  | .num (.int n) => if 0 ≤ n then some n.toNat else none
  | _ => none

/-- `Value::is_null`. -/
def Value.isNull : Value → Bool
  | .null => true
  | _ => false

/-! ## Parameter extraction (src/main.rs lines 9-16, 125-173, 265-273) -/

/-- The `Payload` struct: five optional string parameters
(`#[derive(Deserialize, Serialize, Clone, Debug, Default)]`). -/
structure Payload where
  ticker_symbol : Option String
  api_key : Option String
  limit : Option String
  days_forward : Option String
  contract_type : Option String
deriving DecidableEq

/-- `Payload::default()`: every field `None`. -/
def defaultPayload : Payload :=
  ⟨none, none, none, none, none⟩

/-- `extract_parameters_from_value` (lines 265-273): each field is read
with `value.get(k).and_then(as_str)`. -/
def extract_parameters_from_value (value : Value) : Payload where
  ticker_symbol := (value.get "ticker_symbol").bind Value.asStr
  api_key := (value.get "api_key").bind Value.asStr
  limit := (value.get "limit").bind Value.asStr
  days_forward := (value.get "days_forward").bind Value.asStr
  contract_type := (value.get "contract_type").bind Value.asStr

/-- Derived deserialization of one `Option String` field from an object's
field list: a missing key or a `null` value reads as `None`, a string
reads as `Some`, any other type is a deserialization error. -/
def optStrField (fields : List (String × Value)) (key : String) :
    Option (Option String) :=
  match lookupField fields key with
  | none => some none
  | some .null => some none
  | some (.str s) => some (some s)
  | some _ => none

/-- `serde_json::from_value::<Payload>`: derived deserialization of the
`Payload` struct from a JSON value. Non-objects fail; unknown keys are
allowed; each declared field must be absent, null, or a string. -/
def payloadFromValue : Value → Option Payload
  | .obj fields => do
    let ts ← optStrField fields "ticker_symbol"
    let ak ← optStrField fields "api_key"
    let li ← optStrField fields "limit"
    let df ← optStrField fields "days_forward"
    let ct ← optStrField fields "contract_type"
    some ⟨ts, ak, li, df, ct⟩
  | _ => none

/-- Serialization of a `Payload` back into a JSON object (present fields
as strings, absent fields omitted); used to build concrete events. -/
def payloadToValue (p : Payload) : Value :=
  .obj (List.filterMap (fun kv => kv.2.map fun s => (kv.1, Value.str s))
    [("ticker_symbol", p.ticker_symbol), ("api_key", p.api_key),
     ("limit", p.limit), ("days_forward", p.days_forward),
     ("contract_type", p.contract_type)])

/-- Request-identifier resolution used in the first three handler
branches (lines 131-137, 142-148, 154-160):
`event.get("requestContext").and_then(get "requestId").and_then(as_str)`,
falling back to the platform's `context.request_id`. -/
def requestIdOf (event : Value) (platformId : String) : String :=
  ((((event.get "requestContext").bind
      (fun rc => rc.get "requestId")).bind Value.asStr)).getD platformId

/-- The event-dispatch prelude of `function_handler` (lines 128-166).
`deserBody` stands for `serde_json::from_str::<Payload>` applied to the
body string (a parameter of the embedding, since the handler receives it
from the serde library); the final component is the platform-supplied
`event.context.request_id`. -/
def handlerExtract (deserBody : String → Option Payload) (event : Value)
    (platformId : String) : Payload × String :=
  match event.get "queryStringParameters" with
  | some qp => (extract_parameters_from_value qp, requestIdOf event platformId)
  | none =>
    match event.get "headers" with
    | some hs => (extract_parameters_from_value hs, requestIdOf event platformId)
    | none =>
      match event.get "body" with
      | some b =>
        ((deserBody (b.asStr.getD "")).getD defaultPayload,
         requestIdOf event platformId)
      | none => ((payloadFromValue event).getD defaultPayload, platformId)

/-- The resolved request parameters (all strings). -/
structure Params where
  ticker_symbol : String
  api_key : String
  limit : String
  days_forward : String
  contract_type : String
deriving DecidableEq

/-- Defaulting of the extracted payload (lines 169-173):
`unwrap_or` with the documented literal defaults, applied before any
upstream call is issued. -/
def resolveParams (p : Payload) : Params where
  ticker_symbol := p.ticker_symbol.getD "AAPL"
  api_key := p.api_key.getD "YOUR_API_KEY"
  limit := p.limit.getD "10"
  days_forward := p.days_forward.getD "30"
  contract_type := p.contract_type.getD "call"

/-! ## Contract listing (src/main.rs lines 45-89) -/

/-- Rust's `str::parse::<i64>`: an optional sign followed by one or more
ASCII digits, the value required to fit in an i64. -/
def parseI64 (s : String) : Option Int :=
  match s.data with
  | [] => none
  | c :: rest =>
    let signed : Int × List Char :=
      if c = '+' then (1, rest)
      else if c = '-' then (-1, rest) else (1, c :: rest)
    match signed with
    | (sign, digits) =>
      if digits.isEmpty then none
      else if digits.all Char.isDigit then
        let mag : Int :=
          digits.foldl (fun acc d => acc * 10 + (d.toNat - 48)) 0
        let v := sign * mag
        if -(2 ^ 63) ≤ v ∧ v ≤ 2 ^ 63 - 1 then some v else none
      else none

/-- Lines 54-56 of `get_relevant_option_contracts`: the upper
expiration-date bound is today's date plus `days_forward` parsed as an
integer, with parse failure defaulting the offset to 30
(`days_forward.parse().unwrap_or(30)`). Dates are embedded as integer
day numbers. -/
def listerUpperBound (today : Int) (days_forward : String) : Int :=
  today + (parseI64 days_forward).getD 30

/-- An HTTP response, by outcome: a success-status response carries the
result of deserializing its body as JSON (`response.json()`, `none` on
malformed JSON), a non-success response carries its status text and the
result of reading its body as text (`response.text()`, `none` on a read
failure). -/
inductive HttpResponse where
  | success (body : Option Value)
  | failure (status : String) (text : Option String)

/-- The outcome of `client.get(...).send()`: a transport error or a
response. -/
inductive SendResult where
  | transportErr
  | ok (resp : HttpResponse)

/-- Lines 77-82: the success-path body processing of the lister —
`data["results"].as_array().unwrap_or(&vec![])` filtered-mapped through
`contract["ticker"].as_str()`. -/
def extractTickers (data : Value) : List String :=
  ((data.idx "results").asArr.getD []).filterMap
    (fun contract => (contract.idx "ticker").asStr)

/-- `get_relevant_option_contracts` (lines 45-89), by outcome of its one
HTTP call. The `?` operator turns a transport error, a failed body
deserialization on the success path, or a failed body read on the
failure path into an invocation error; a non-success status with a
readable body yields `Ok(vec![])`. -/
def get_relevant_option_contracts : SendResult → Except Unit (List String)
  | .transportErr => .error ()
  | .ok (.success none) => .error ()
  | .ok (.success (some data)) => .ok (extractTickers data)
  | .ok (.failure _ none) => .error ()
  | .ok (.failure _ (some _)) => .ok []

/-- Does the lister call end in an invocation-level error? -/
def isFatal : Except Unit (List String) → Bool
  | .error _ => true
  | .ok _ => false

/-- The send outcomes in which the lister's own transport or
body-deserialization fails: a failed send, a success-status body that
does not deserialize, or a failure-status body that cannot be read. -/
def listerTransportOrDeserFailure : SendResult → Bool
  | .transportErr => true
  | .ok (.success none) => true
  | .ok (.failure _ none) => true
  | _ => false

/-! ## Detail fetching (src/main.rs lines 92-123) -/

/-- `get_contract_details` (lines 92-123), by outcome of its one HTTP
call: on success it returns `data["results"]` (which may be `Null`), on
a non-success status with readable body it returns `Ok(Value::Null)`,
and transport/read/deserialization failures are `Err`. -/
def get_contract_details : SendResult → Except Unit Value
  | .transportErr => .error ()
  | .ok (.success none) => .error ()
  | .ok (.success (some data)) => .ok (data.idx "results")
  | .ok (.failure _ none) => .error ()
  | .ok (.failure _ (some _)) => .ok .null

/-! ## Number formatting (the `format!` and `to_string` calls of the
result shaper, src/main.rs lines 211-235) -/

/-- The value of a decimal rounded at the hundredths place to the
nearest multiple of 1/100 (returned scaled by 100, as an integer), ties
to even — the rounding Rust's fixed-precision float formatting applies
to the (here exactly represented) value. -/
def roundAtHundredths (d : Dec10) : Int :=
  let p : Int := (10 : Int) ^ d.e
  let n := Int.fdiv (100 * d.m) p
  let r := 100 * d.m - n * p
  if 2 * r < p then n
  else if p < 2 * r then n + 1
  else if n % 2 = 0 then n else n + 1

/-- Two decimal digits, zero-padded. -/
def pad2 (n : Nat) : String :=
  if n < 10 then "0" ++ toString n else toString n

/-- `format!("\x7b:.2\x7d", d)`: fixed two-decimal rendering; the sign
is the sign of the value. -/
def fmtTwoDec (d : Dec10) : String :=
  (if d.m < 0 then "-" else "") ++
    toString ((roundAtHundredths d).natAbs / 100) ++ "." ++
    pad2 ((roundAtHundredths d).natAbs % 100)

/-- Left-pad a natural's decimal form with zeros to `k` digits. -/
def padZeros (k : Nat) (n : Nat) : String :=
  String.mk (List.replicate (k - (toString n).length) '0') ++ toString n

/-- Strip trailing decimal zeros from a mantissa/exponent pair
(recursion on the exponent). -/
def stripZeros (m : Int) : Nat → Dec10
  | 0 => ⟨m, 0⟩
  | e + 1 => if m % 10 = 0 then stripZeros (m / 10) e else ⟨m, e + 1⟩

/-- The unique representation of the same value with the fewest
fractional digits. -/
def Dec10.normalize (d : Dec10) : Dec10 :=
  stripZeros d.m d.e

/-- `f64::to_string` (Rust's `Display` for floats, shortest decimal
form) on an exact decimal: the minimal number of fractional digits, no
trailing zeros, integers without a decimal point. -/
def f64Display (d : Dec10) : String :=
  let n := d.normalize
  if n.e = 0 then toString n.m
  else
    (if n.m < 0 then "-" else "") ++ toString (n.m.natAbs / 10 ^ n.e) ++
      "." ++ padZeros n.e (n.m.natAbs % 10 ^ n.e)

/-! ## Result shaping (src/main.rs lines 196-253) -/

/-- The per-contract summary record built at lines 211-245, for one
non-null detail value. Every field is a string; a source field that is
absent or of the wrong type renders as `"N/A"`. The object is written in
the (alphabetical) key order in which serde's map serializes it, which
coincides with the order in the `json!` literal. -/
def shapeContract (c : Value) : Value :=
  .obj
    [("contract_type",
      .str (((c.idx "details").idx "contract_type").asStr.getD "N/A")),
     ("expiration_date",
      .str (((c.idx "details").idx "expiration_date").asStr.getD "N/A")),
     ("implied_volatility",
      .str (((c.idx "implied_volatility").asF64.map
        (fun v => fmtTwoDec v.mul100 ++ "%")).getD "N/A")),
     ("open_interest",
      .str (((c.idx "open_interest").asU64.map
        (fun v => toString v)).getD "N/A")),
     ("premium",
      .str ((((c.idx "last_quote").idx "midpoint").asF64.map
        fmtTwoDec).getD "N/A")),
     ("strike_price",
      .str ((((c.idx "details").idx "strike_price").asF64.map
        f64Display).getD "N/A")),
     ("ticker",
      .str (((c.idx "details").idx "ticker").asStr.getD "N/A"))]

/-- The `filter_map` over fetch outcomes at lines 203-253: an `Err`
outcome or a `Null` detail value is dropped, every other value is
shaped. -/
def formatContracts (outcomes : List (Except Unit Value)) : List Value :=
  outcomes.filterMap fun r =>
    match r with
    | .error _ => none
    | .ok c => if c.isNull then none else some (shapeContract c)

/-- Is a fetch outcome kept by the result shaper? -/
def keepOutcome : Except Unit Value → Bool
  | .error _ => false
  | .ok c => !c.isNull

/-- The summary a kept outcome contributes. -/
def outcomeSummary : Except Unit Value → Value
  | .error _ => .null
  | .ok c => shapeContract c

/-- Lines 196-200 followed by the shaping: one detail fetch per contract
ticker, fired concurrently and joined by `join_all`, which returns the
outcomes in the order of the futures, i.e. in ticker-list order; the
per-ticker outcome is abstracted as the function `fetch`. -/
def handlerShape (fetch : String → Except Unit Value)
    (tickers : List String) : List Value :=
  formatContracts (tickers.map fetch)

/-- The handler's response payload (line 259):
`\x7b "option_contracts": [...] \x7d`. -/
def responseEnvelope (summaries : List Value) : Value :=
  .obj [("option_contracts", .arr summaries)]

/-! ## Concrete values used in evaluation checks -/

/-- A concrete detail value exercising each present-field rendering. -/
def sampleDetail : Value :=
  .obj
    [("details",
      .obj [("contract_type", .str "call"),
            ("expiration_date", .str "2025-01-17"),
            ("strike_price", .num (.float ⟨1875, 1⟩)),
            ("ticker", .str "O:AAPL250117C00187500")]),
     ("implied_volatility", .num (.float ⟨1234, 4⟩)),
     ("open_interest", .num (.int 42)),
     ("last_quote", .obj [("midpoint", .num (.float ⟨15, 1⟩))])]

/-- A concrete listing body: two contracts with string tickers, one with
a numeric ticker, one with no ticker field. -/
def sampleListing : Value :=
  .obj [("results",
    .arr [.obj [("ticker", .str "O:AAPL1")],
          .obj [("ticker", .num (.int 3))],
          .obj [],
          .obj [("ticker", .str "O:AAPL2")]])]

/-- A body deserializer that rejects every string, as serde does on any
body that is not a JSON parameter record. -/
def deserNone : String → Option Payload := fun _ => none

/-- A payload carrying only a ticker symbol. -/
def pMSFT : Payload := ⟨some "MSFT", none, none, none, none⟩

/-- A body deserializer accepting exactly the body string "pj" as
`pMSFT`. -/
def deserMSFT : String → Option Payload :=
  fun t => if t = "pj" then some pMSFT else none

/-- An event carrying both a `queryStringParameters` field and a `body`
field whose string is not valid JSON. -/
def shadowedBodyEvent : Value :=
  .obj [("queryStringParameters", .obj [("ticker_symbol", .str "MSFT")]),
        ("body", .str "x")]

/-- A direct-invocation event (no shape key) that nevertheless carries a
`requestContext.requestId`. -/
def directCtxEvent : Value :=
  .obj [("requestContext", .obj [("requestId", .str "X")]),
        ("ticker_symbol", .str "A")]

/-! ## Helper lemmas -/

theorem toRat_mul100 (d : Dec10) : d.mul100.toRat = d.toRat * 100 := by
  simp only [Dec10.toRat, Dec10.mul100]
  push_cast
  ring

theorem toRat_neg_iff (d : Dec10) : d.toRat < 0 ↔ d.m < 0 := by
  rw [Dec10.toRat, div_lt_iff₀ (by positivity : (0 : ℚ) < 10 ^ d.e), zero_mul]
  exact Int.cast_lt_zero

theorem round_of_toRat_int (d : Dec10) (k : Int)
    (h : d.toRat * 100 = (k : ℚ)) : roundAtHundredths d = k := by
  have hpZ : (0 : Int) < 10 ^ d.e := by positivity
  have h10 : ((10 : ℚ) ^ d.e) ≠ 0 := by positivity
  have hq : ((100 : Int) * d.m : ℚ) = (k : ℚ) * 10 ^ d.e := by
    rw [Dec10.toRat, div_mul_eq_mul_div, div_eq_iff h10] at h
    push_cast
    linarith
  have hZ : 100 * d.m = k * 10 ^ d.e := by exact_mod_cast hq
  have hfd : Int.fdiv (100 * d.m) (10 ^ d.e) = k := by
    rw [hZ]
    exact Int.mul_fdiv_cancel k (ne_of_gt hpZ)
  simp only [roundAtHundredths]
  rw [hfd, hZ]
  simp [hpZ]

theorem fmtTwoDec_of_toRat (d : Dec10) (k : Int) (hm : 0 ≤ d.m)
    (h : d.toRat * 100 = (k : ℚ)) :
    fmtTwoDec d =
      "" ++ toString (k.natAbs / 100) ++ "." ++ pad2 (k.natAbs % 100) := by
  rw [fmtTwoDec, round_of_toRat_int d k h, if_neg (not_lt.mpr hm)]

theorem toRat_m_nonneg (d : Dec10) (h : 0 ≤ d.toRat) : 0 ≤ d.m := by
  by_contra hneg
  push_neg at hneg
  exact absurd ((toRat_neg_iff d).mpr hneg) (not_lt.mpr h)

theorem formatContracts_eq_filter (os : List (Except Unit Value)) :
    formatContracts os = (os.filter keepOutcome).map outcomeSummary := by
  induction os with
  | nil => rfl
  | cons o rest ih =>
    cases o with
    | error u =>
      simpa [formatContracts, keepOutcome, List.filterMap_cons,
        List.filter_cons] using ih
    | ok c =>
      cases hc : c.isNull <;>
        simpa [formatContracts, keepOutcome, outcomeSummary, hc,
          List.filterMap_cons, List.filter_cons] using ih

theorem formatContracts_append (xs ys : List (Except Unit Value)) :
    formatContracts (xs ++ ys) = formatContracts xs ++ formatContracts ys := by
  simp [formatContracts, List.filterMap_append]

/-! ## Claims -/

/-- Claim C3: in the result shaper, each summary field defaults
independently to the literal string "N/A" when its source field is
absent or of the wrong type; when present, an `implied_volatility` whose
value is the number 0.1234 renders exactly as "12.34%" (value times 100,
two decimal places), a `last_quote.midpoint` of 1.5 renders as premium
"1.50", `strike_price` renders as its decimal string form, and
`open_interest` (a non-negative integer) as its decimal string form. -/
theorem claim_C3_shaper_field_formatting : ∀ c : Value,
    (((c.idx "details").idx "contract_type").asStr = none →
      (shapeContract c).idx "contract_type" = .str "N/A") ∧
    (((c.idx "details").idx "expiration_date").asStr = none →
      (shapeContract c).idx "expiration_date" = .str "N/A") ∧
    (((c.idx "details").idx "strike_price").asF64 = none →
      (shapeContract c).idx "strike_price" = .str "N/A") ∧
    ((c.idx "implied_volatility").asF64 = none →
      (shapeContract c).idx "implied_volatility" = .str "N/A") ∧
    ((c.idx "open_interest").asU64 = none →
      (shapeContract c).idx "open_interest" = .str "N/A") ∧
    (((c.idx "last_quote").idx "midpoint").asF64 = none →
      (shapeContract c).idx "premium" = .str "N/A") ∧
    (((c.idx "details").idx "ticker").asStr = none →
      (shapeContract c).idx "ticker" = .str "N/A") ∧
    ((c.idx "implied_volatility").asF64Val = some (1234 / 10000 : ℚ) →
      (shapeContract c).idx "implied_volatility" = .str "12.34%") ∧
    (((c.idx "last_quote").idx "midpoint").asF64Val = some (3 / 2 : ℚ) →
      (shapeContract c).idx "premium" = .str "1.50") ∧
    (∀ d, ((c.idx "details").idx "strike_price").asF64 = some d →
      (shapeContract c).idx "strike_price" = .str (f64Display d)) ∧
    (∀ n, (c.idx "open_interest").asU64 = some n →
      (shapeContract c).idx "open_interest" = .str (toString n)) ∧
    (∀ d, (c.idx "implied_volatility").asF64 = some d →
      (shapeContract c).idx "implied_volatility" =
        .str (fmtTwoDec d.mul100 ++ "%")) ∧
    (∀ d, ((c.idx "last_quote").idx "midpoint").asF64 = some d →
      (shapeContract c).idx "premium" = .str (fmtTwoDec d)) := by
  intro c
  have ect : (shapeContract c).idx "contract_type" =
      .str (((c.idx "details").idx "contract_type").asStr.getD "N/A") := rfl
  have eed : (shapeContract c).idx "expiration_date" =
      .str (((c.idx "details").idx "expiration_date").asStr.getD "N/A") := rfl
  have esp : (shapeContract c).idx "strike_price" =
      .str ((((c.idx "details").idx "strike_price").asF64.map
        f64Display).getD "N/A") := rfl
  have eiv : (shapeContract c).idx "implied_volatility" =
      .str (((c.idx "implied_volatility").asF64.map
        (fun v => fmtTwoDec v.mul100 ++ "%")).getD "N/A") := rfl
  have eoi : (shapeContract c).idx "open_interest" =
      .str (((c.idx "open_interest").asU64.map
        (fun v => toString v)).getD "N/A") := rfl
  have epr : (shapeContract c).idx "premium" =
      .str ((((c.idx "last_quote").idx "midpoint").asF64.map
        fmtTwoDec).getD "N/A") := rfl
  have etk : (shapeContract c).idx "ticker" =
      .str (((c.idx "details").idx "ticker").asStr.getD "N/A") := rfl
  refine ⟨fun h => by rw [ect, h]; rfl, fun h => by rw [eed, h]; rfl,
    fun h => by rw [esp, h]; rfl, fun h => by rw [eiv, h]; rfl,
    fun h => by rw [eoi, h]; rfl, fun h => by rw [epr, h]; rfl,
    fun h => by rw [etk, h]; rfl, ?_, ?_,
    fun d h => by rw [esp, h]; rfl, fun n h => by rw [eoi, h]; rfl,
    fun d h => by rw [eiv, h]; rfl, fun d h => by rw [epr, h]; rfl⟩
  · intro h
    rw [Value.asF64Val, Option.map_eq_some'] at h
    obtain ⟨d, hd, hval⟩ := h
    rw [eiv, hd]
    have hv : d.mul100.toRat * 100 = ((1234 : Int) : ℚ) := by
      rw [toRat_mul100, hval]
      norm_num
    have hdm : 0 ≤ d.m := toRat_m_nonneg d (by rw [hval]; norm_num)
    have hm : 0 ≤ d.mul100.m := by
      simp only [Dec10.mul100]
      positivity
    rw [Option.map_some', Option.getD_some,
      fmtTwoDec_of_toRat d.mul100 1234 hm hv]
    exact congrArg Value.str (by decide)
  · intro h
    rw [Value.asF64Val, Option.map_eq_some'] at h
    obtain ⟨d, hd, hval⟩ := h
    rw [epr, hd]
    have hv : d.toRat * 100 = ((150 : Int) : ℚ) := by
      rw [hval]
      norm_num
    have hm : 0 ≤ d.m := toRat_m_nonneg d (by rw [hval]; norm_num)
    rw [Option.map_some', Option.getD_some, fmtTwoDec_of_toRat d 150 hm hv]
    exact congrArg Value.str (by decide)

/-- Concrete check of claim C3: field-by-field evaluation of the shaper
on an all-absent detail value and on `sampleDetail`, with every
hypothesis of the claim theorem discharged by evaluation. -/
theorem claim_C3_shaper_field_formatting_witness :
    (shapeContract (.str "x")).idx "contract_type" = .str "N/A" ∧
    (shapeContract (.str "x")).idx "expiration_date" = .str "N/A" ∧
    (shapeContract (.str "x")).idx "strike_price" = .str "N/A" ∧
    (shapeContract (.str "x")).idx "implied_volatility" = .str "N/A" ∧
    (shapeContract (.str "x")).idx "open_interest" = .str "N/A" ∧
    (shapeContract (.str "x")).idx "premium" = .str "N/A" ∧
    (shapeContract (.str "x")).idx "ticker" = .str "N/A" ∧
    (shapeContract sampleDetail).idx "implied_volatility" = .str "12.34%" ∧
    (shapeContract sampleDetail).idx "premium" = .str "1.50" ∧
    (shapeContract sampleDetail).idx "strike_price" =
      .str (f64Display ⟨1875, 1⟩) ∧
    (shapeContract sampleDetail).idx "open_interest" =
      .str (toString (42 : Nat)) := by
  obtain ⟨h1, h2, h3, h4, h5, h6, h7, -, -, -, -, -, -⟩ :=
    claim_C3_shaper_field_formatting (.str "x")
  obtain ⟨-, -, -, -, -, -, -, g8, g9, g10, g11, -, -⟩ :=
    claim_C3_shaper_field_formatting sampleDetail
  have hiv : (sampleDetail.idx "implied_volatility").asF64Val =
      some (1234 / 10000 : ℚ) := by
    rw [show (sampleDetail.idx "implied_volatility").asF64Val =
      some (Dec10.toRat ⟨1234, 4⟩) from rfl]
    norm_num [Dec10.toRat]
  have hpr : ((sampleDetail.idx "last_quote").idx "midpoint").asF64Val =
      some (3 / 2 : ℚ) := by
    rw [show ((sampleDetail.idx "last_quote").idx "midpoint").asF64Val =
      some (Dec10.toRat ⟨15, 1⟩) from rfl]
    norm_num [Dec10.toRat]
  exact ⟨h1 rfl, h2 rfl, h3 rfl, h4 rfl, h5 rfl, h6 rfl, h7 rfl,
    g8 hiv, g9 hpr, g10 ⟨1875, 1⟩ rfl, g11 42 rfl⟩

/-- Claim C1: the result shaper keeps exactly one summary per successful
non-null detail outcome, in the relative order of the contract-ticker
list; null-valued and failed outcomes are absent from the output,
leaving the remaining entries unaffected, and no per-item failure aborts
the batch (the shaper is a total function of the outcome list). -/
theorem claim_C1_shaper_order_and_drops :
    (∀ (fetch : String → Except Unit Value) (tickers : List String),
      handlerShape fetch tickers =
        ((tickers.map fetch).filter keepOutcome).map outcomeSummary) ∧
    (∀ xs ys, formatContracts (xs ++ Except.error () :: ys) =
      formatContracts (xs ++ ys)) ∧
    (∀ xs ys, formatContracts (xs ++ Except.ok Value.null :: ys) =
      formatContracts (xs ++ ys)) ∧
    (∀ xs ys v, v.isNull = false →
      formatContracts (xs ++ Except.ok v :: ys) =
        formatContracts xs ++ shapeContract v :: formatContracts ys) := by
  refine ⟨fun fetch tickers => formatContracts_eq_filter _, ?_, ?_, ?_⟩
  · intro xs ys
    rw [formatContracts_append, formatContracts_append]
    simp [formatContracts, List.filterMap_cons]
  · intro xs ys
    rw [formatContracts_append, formatContracts_append]
    simp [formatContracts, List.filterMap_cons, Value.isNull]
  · intro xs ys v hv
    rw [formatContracts_append]
    simp [formatContracts, List.filterMap_cons, hv]

/-- Concrete check of claim C1: one failed fetch inserted between two
kept outcomes is dropped and leaves the others in order. -/
theorem claim_C1_shaper_order_and_drops_witness :
    formatContracts
        ([Except.error ()] ++ Except.ok (Value.str "d") :: []) =
      formatContracts [Except.error ()] ++
        shapeContract (Value.str "d") :: formatContracts [] :=
  claim_C1_shaper_order_and_drops.2.2.2 [Except.error ()] [] (Value.str "d")
    rfl

/-- Claim C2: the contract-lister call fails the whole invocation
exactly when its own transport or body-deserialization fails; a
non-success upstream status instead yields the empty ticker list (not an
error), producing the same well-formed empty `option_contracts` envelope
a ticker without contracts produces. -/
theorem claim_C2_lister_failure_taxonomy :
    (∀ r, isFatal (get_relevant_option_contracts r) =
      listerTransportOrDeserFailure r) ∧
    (∀ status text,
      get_relevant_option_contracts (.ok (.failure status (some text))) =
        .ok []) ∧
    (∀ status text,
      get_relevant_option_contracts (.ok (.failure status (some text))) =
        get_relevant_option_contracts
          (.ok (.success (some (.obj [("results", .arr [])]))))) ∧
    (∀ fetch, responseEnvelope (handlerShape fetch []) =
      responseEnvelope []) := by
  refine ⟨fun r => ?_, fun _ _ => rfl, fun _ _ => rfl, fun _ => rfl⟩
  cases r with
  | transportErr => rfl
  | ok resp =>
    cases resp with
    | success body => cases body <;> rfl
    | failure status text => cases text <;> rfl

/-- Claim C10: a success-status lister response whose body's `results`
field is absent or not an array yields the empty ticker list, and the
success path never raises an error for any JSON body. -/
theorem claim_C10_lister_success_total :
    (∀ data : Value, (data.idx "results").asArr = none →
      get_relevant_option_contracts (.ok (.success (some data))) = .ok []) ∧
    (∀ data : Value,
      get_relevant_option_contracts (.ok (.success (some data))) =
        .ok (extractTickers data)) := by
  refine ⟨fun data h => ?_, fun data => rfl⟩
  simp [get_relevant_option_contracts, extractTickers, h]

/-- Concrete check of claim C10: a body whose `results` is a string
gives the empty list. -/
theorem claim_C10_lister_success_total_witness :
    get_relevant_option_contracts
        (.ok (.success (some (.obj [("results", .str "oops")])))) = .ok [] :=
  claim_C10_lister_success_total.1 (.obj [("results", .str "oops")]) rfl

/-- Claim C6: each absent parameter field resolves independently to its
documented default before any upstream call — `ticker_symbol` to
"AAPL", `api_key` to the placeholder "YOUR_API_KEY", `limit` to "10",
`days_forward` to "30", `contract_type` to "call"; an event supplying
only `ticker_symbol = "MSFT"` yields the defaults for every other
field. -/
theorem claim_C6_parameter_defaults : ∀ p : Payload,
    (p.ticker_symbol = none → (resolveParams p).ticker_symbol = "AAPL") ∧
    (p.api_key = none → (resolveParams p).api_key = "YOUR_API_KEY") ∧
    (p.limit = none → (resolveParams p).limit = "10") ∧
    (p.days_forward = none → (resolveParams p).days_forward = "30") ∧
    (p.contract_type = none → (resolveParams p).contract_type = "call") ∧
    resolveParams ⟨some "MSFT", none, none, none, none⟩ =
      ⟨"MSFT", "YOUR_API_KEY", "10", "30", "call"⟩ := by
  intro p
  refine ⟨fun h => ?_, fun h => ?_, fun h => ?_, fun h => ?_, fun h => ?_,
    rfl⟩
  all_goals simp [resolveParams, h]

/-- Concrete check of claim C6: the all-absent payload resolves to every
documented default. -/
theorem claim_C6_parameter_defaults_witness :
    (resolveParams defaultPayload).ticker_symbol = "AAPL" ∧
    (resolveParams defaultPayload).api_key = "YOUR_API_KEY" ∧
    (resolveParams defaultPayload).limit = "10" ∧
    (resolveParams defaultPayload).days_forward = "30" ∧
    (resolveParams defaultPayload).contract_type = "call" := by
  obtain ⟨h1, h2, h3, h4, h5, -⟩ := claim_C6_parameter_defaults defaultPayload
  exact ⟨h1 rfl, h2 rfl, h3 rfl, h4 rfl, h5 rfl⟩

theorem filterMap_ticker_eq (xs : List Value) :
    xs.filterMap (fun c => (c.idx "ticker").asStr) =
      (xs.filter (fun c => ((c.idx "ticker").asStr).isSome)).map
        (fun c => ((c.idx "ticker").asStr).getD "") := by
  induction xs with
  | nil => rfl
  | cons x rest ih =>
    cases hx : (x.idx "ticker").asStr <;>
      simp [List.filterMap_cons, List.filter_cons, hx, ih]

/-- Claim C7: on a successful lister response, the contract-identifier
list is the `ticker` string field of each element of the `results`
array, skipping every element whose `ticker` is absent or not a string,
in the order of the input array. -/
theorem claim_C7_lister_ticker_extraction :
    ∀ (data : Value) (xs : List Value), data.idx "results" = .arr xs →
      extractTickers data =
        (xs.filter (fun c => ((c.idx "ticker").asStr).isSome)).map
          (fun c => ((c.idx "ticker").asStr).getD "") := by
  intro data xs h
  rw [extractTickers, h]
  simpa [Value.asArr] using filterMap_ticker_eq xs

/-- Concrete check of claim C7: elements with a missing or non-string
`ticker` are skipped, order preserved. -/
theorem claim_C7_lister_ticker_extraction_witness :
    extractTickers sampleListing = ["O:AAPL1", "O:AAPL2"] :=
  (claim_C7_lister_ticker_extraction sampleListing
    [.obj [("ticker", .str "O:AAPL1")], .obj [("ticker", .num (.int 3))],
     .obj [], .obj [("ticker", .str "O:AAPL2")]] rfl).trans rfl

/-- Claim C8: the lister parses `days_forward` as an integer to compute
the upper expiration-date bound from today's date; a string that does
not parse as an integer silently defaults the offset to 30 days, with no
error raised (the computation is total). -/
theorem claim_C8_days_forward_parsing :
    (∀ s n, parseI64 s = some n → ∀ today : Int,
      listerUpperBound today s = today + n) ∧
    (∀ s, parseI64 s = none → ∀ today : Int,
      listerUpperBound today s = today + 30) := by
  constructor
  · intro s n h today
    rw [listerUpperBound, h]
    rfl
  · intro s h today
    rw [listerUpperBound, h]
    rfl

/-- Concrete check of claim C8: "45" parses and offsets by 45, "abc"
does not parse and offsets by 30. -/
theorem claim_C8_days_forward_parsing_witness :
    parseI64 "45" = some 45 ∧ listerUpperBound 100 "45" = 145 ∧
    parseI64 "abc" = none ∧ listerUpperBound 100 "abc" = 130 :=
  ⟨by decide,
   (claim_C8_days_forward_parsing.1 "45" 45 (by decide) 100).trans
     (by decide),
   by decide,
   (claim_C8_days_forward_parsing.2 "abc" (by decide) 100).trans
     (by decide)⟩

theorem extract_payloadToValue (p : Payload) :
    extract_parameters_from_value (payloadToValue p) = p := by
  obtain ⟨t, a, l, d, c⟩ := p
  cases t <;> cases a <;> cases l <;> cases d <;> cases c <;> rfl

theorem fromValue_payloadToValue (p : Payload) :
    payloadFromValue (payloadToValue p) = some p := by
  obtain ⟨t, a, l, d, c⟩ := p
  cases t <;> cases a <;> cases l <;> cases d <;> cases c <;> rfl

theorem payloadToValue_no_shape_keys (p : Payload) :
    (payloadToValue p).get "queryStringParameters" = none ∧
    (payloadToValue p).get "headers" = none ∧
    (payloadToValue p).get "body" = none := by
  obtain ⟨t, a, l, d, c⟩ := p
  cases t <;> cases a <;> cases l <;> cases d <;> cases c <;>
    exact ⟨rfl, rfl, rfl⟩

/-- Claim C4: the four inbound event shapes — a `queryStringParameters`
map, a `headers` map, a JSON-string `body` deserializing to the record,
and a bare parameter record — all make the parameter extractor produce
the same record; the resolution order is queryStringParameters, then
headers, then body, then direct parse, first match winning. -/
theorem claim_C4_event_shape_equivalence :
    ∀ (deser : String → Option Payload) (p : Payload) (s ctx : String),
      deser s = some p →
      ((handlerExtract deser
          (.obj [("queryStringParameters", payloadToValue p)]) ctx).1 = p ∧
       (handlerExtract deser
          (.obj [("headers", payloadToValue p)]) ctx).1 = p ∧
       (handlerExtract deser (.obj [("body", .str s)]) ctx).1 = p ∧
       (handlerExtract deser (payloadToValue p) ctx).1 = p) ∧
      (∀ v w b, (handlerExtract deser
          (.obj [("queryStringParameters", v), ("headers", w),
                 ("body", b)]) ctx).1 = extract_parameters_from_value v) ∧
      (∀ w b, (handlerExtract deser
          (.obj [("headers", w), ("body", b)]) ctx).1 =
            extract_parameters_from_value w) ∧
      (∀ s2, (handlerExtract deser
          (.obj [("body", .str s2), ("ticker_symbol", .str "Z")]) ctx).1 =
            (deser s2).getD defaultPayload) := by
  intro deser p s ctx hs
  refine ⟨⟨extract_payloadToValue p, extract_payloadToValue p, ?_, ?_⟩,
    fun v w b => rfl, fun w b => rfl, fun s2 => rfl⟩
  · show (deser s).getD defaultPayload = p
    rw [hs]
    rfl
  · obtain ⟨h1, h2, h3⟩ := payloadToValue_no_shape_keys p
    simp only [handlerExtract, h1, h2, h3]
    rw [fromValue_payloadToValue]
    rfl

/-- Concrete check of claim C4: all four shapes yield `pMSFT` for the
same field values. -/
theorem claim_C4_event_shape_equivalence_witness :
    (handlerExtract deserMSFT
      (.obj [("queryStringParameters", payloadToValue pMSFT)]) "c").1 =
        pMSFT ∧
    (handlerExtract deserMSFT
      (.obj [("headers", payloadToValue pMSFT)]) "c").1 = pMSFT ∧
    (handlerExtract deserMSFT (.obj [("body", .str "pj")]) "c").1 = pMSFT ∧
    (handlerExtract deserMSFT (payloadToValue pMSFT) "c").1 = pMSFT := by
  obtain ⟨⟨a, b, c, d⟩, -, -, -⟩ :=
    claim_C4_event_shape_equivalence deserMSFT pMSFT "pj" "c" (by decide)
  exact ⟨a, b, c, d⟩

/-- Counterexample to claim C5 as stated: an event that has a `body`
field whose string is not valid JSON, but also has a
`queryStringParameters` field — the extractor reads the query
parameters and does not yield the all-defaults record. -/
theorem claim_C5_body_fallback_counterexample :
    shadowedBodyEvent.get "body" = some (.str "x") ∧
    deserNone "x" = none ∧
    (handlerExtract deserNone shadowedBodyEvent "rid").1 ≠
      defaultPayload := by
  refine ⟨rfl, rfl, ?_⟩
  decide

/-- Claim C5 (amended): for every event without `queryStringParameters`
and `headers` fields whose `body` string value fails to deserialize as
the parameter record (a non-string `body` reads as the empty string),
the extractor yields the all-defaults record and the invocation does not
fail. -/
theorem claim_C5_body_fallback_amended :
    ∀ (deser : String → Option Payload) (event b : Value) (ctx : String),
      event.get "queryStringParameters" = none →
      event.get "headers" = none →
      event.get "body" = some b →
      deser (b.asStr.getD "") = none →
      handlerExtract deser event ctx =
        (defaultPayload, requestIdOf event ctx) := by
  intro deser event b ctx h1 h2 h3 h4
  simp only [handlerExtract, h1, h2, h3, h4]
  rfl

/-- Concrete check of claim C5 (amended): a non-string body with a
deserializer that rejects everything yields the defaults. -/
theorem claim_C5_body_fallback_amended_witness :
    handlerExtract deserNone (.obj [("body", .num (.int 5))]) "rid" =
      (defaultPayload, "rid") :=
  claim_C5_body_fallback_amended deserNone (.obj [("body", .num (.int 5))])
    (.num (.int 5)) "rid" rfl rfl rfl rfl

/-- Counterexample to claim C9 as stated: a direct-invocation event that
carries `requestContext.requestId = "X"`, yet the handler uses the
platform identifier. -/
theorem claim_C9_request_id_counterexample :
    ((directCtxEvent.get "requestContext").bind
      (fun rc => rc.get "requestId")).bind Value.asStr = some "X" ∧
    (handlerExtract deserNone directCtxEvent "platform").2 = "platform" ∧
    "platform" ≠ "X" :=
  ⟨rfl, rfl, by decide⟩

/-- Claim C9 (amended): in the query-string, header, and body branches
the request identifier is resolved from `event.requestContext.requestId`
when present, otherwise from the platform-supplied invocation
identifier; in the direct-invocation branch the platform identifier is
used unconditionally. -/
theorem claim_C9_request_id_amended :
    ∀ (deser : String → Option Payload) (event : Value) (ctx : String),
      (∀ v, event.get "queryStringParameters" = some v →
        (handlerExtract deser event ctx).2 = requestIdOf event ctx) ∧
      (event.get "queryStringParameters" = none →
        ∀ v, event.get "headers" = some v →
          (handlerExtract deser event ctx).2 = requestIdOf event ctx) ∧
      (event.get "queryStringParameters" = none →
        event.get "headers" = none →
        ∀ b, event.get "body" = some b →
          (handlerExtract deser event ctx).2 = requestIdOf event ctx) ∧
      (event.get "queryStringParameters" = none →
        event.get "headers" = none → event.get "body" = none →
        (handlerExtract deser event ctx).2 = ctx) ∧
      (∀ rid, ((event.get "requestContext").bind
          (fun rc => rc.get "requestId")).bind Value.asStr = some rid →
        requestIdOf event ctx = rid) ∧
      (((event.get "requestContext").bind
          (fun rc => rc.get "requestId")).bind Value.asStr = none →
        requestIdOf event ctx = ctx) := by
  intro deser event ctx
  refine ⟨?_, ?_, ?_, ?_, ?_, ?_⟩
  · intro v h
    simp only [handlerExtract, h]
  · intro h1 v h
    simp only [handlerExtract, h1, h]
  · intro h1 h2 b h
    simp only [handlerExtract, h1, h2, h]
  · intro h1 h2 h3
    simp only [handlerExtract, h1, h2, h3]
  · intro rid h
    rw [requestIdOf, h]
    rfl
  · intro h
    rw [requestIdOf, h]
    rfl

/-- Concrete check of claim C9 (amended): a query-string event picks up
`requestContext.requestId`. -/
theorem claim_C9_request_id_amended_witness :
    (handlerExtract deserNone
      (.obj [("queryStringParameters", .obj []),
             ("requestContext", .obj [("requestId", .str "X")])]) "p").2 =
      "X" := by
  have h := (claim_C9_request_id_amended deserNone
    (.obj [("queryStringParameters", .obj []),
           ("requestContext", .obj [("requestId", .str "X")])]) "p").1
    (.obj []) rfl
  exact h.trans rfl

end Oca
